import Mathlib

/-
Verification of the OAuth 2.0 token lifecycle manager and setup callback
listener of the openhandlemcp repository.

The embedding follows the two core source files:
  * src/src/auth-manager.ts  (class OAuth2AuthManager)
  * src/src/setup-auth.ts    (class OAuthSetup, startCallbackServer)

Conventions of the embedding:
  * Timestamps are milliseconds since the epoch, modelled as Nat.
  * The persisted token file is modelled by TokensFile: it either does not
    exist, holds syntactically valid JSON text with a given parse result,
    holds text that JSON.parse rejects, or the read itself faults.
  * Network interactions (loginWithOAuth2, refreshOAuth2Token) are modelled
    by an oracle of type Except String ProviderTokenResponse giving the
    outcome of the single call a method performs; a persistence fault in
    fs.writeFile is modelled by an Option String carrying the fault message.
  * Functions that can throw in TypeScript return Except String; a catch
    block becomes a match on that Except.
  * JavaScript truthiness on optional strings and numbers is modelled
    exactly: undefined, the empty string and the number 0 are falsy.
  * Calls to the provider refresh endpoint are counted explicitly so that
    claims about the number of network calls are statements of the model.
  * Sequential semantics for the callback listener: requests are processed
    one at a time and server.close() immediately stops delivery of further
    requests to the handler.
-/

/-- Model of the OAuth2Tokens interface (auth-manager.ts lines 9-13). -/
structure OAuth2Tokens where
  accessToken : String
  refreshToken : Option String
  expiresAt : Option Nat
deriving DecidableEq

/-- Shape of the provider token endpoint response as used by the code:
loginWithOAuth2 and refreshOAuth2Token both return an access token, an
optional rotated refresh token, and an optional declared lifetime in
seconds (expiresIn), which auth-manager.ts never reads. -/
structure ProviderTokenResponse where
  accessToken : String
  refreshToken : Option String
  expiresIn : Option Nat
deriving DecidableEq

/-- Minimal JSON value universe, the codomain of JSON.parse. -/
inductive JsonValue where
  | str (s : String)
  | num (n : Nat)
  | bool (b : Bool)
  | null
  | obj (fields : List (String × JsonValue))
  | arr (elems : List JsonValue)

/-- First-match association lookup on a JSON object, modelling JavaScript
property access on the parsed object. -/
def lookupField : List (String × JsonValue) → String → Option JsonValue
  | [], _ => none
  | (k, v) :: rest, key => if k = key then some v else lookupField rest key

/-- Object produced by JSON.stringify on an OAuth2Tokens value: fields in
declaration order, with undefined optional fields omitted. -/
def tokensToJson (t : OAuth2Tokens) : JsonValue :=
  JsonValue.obj
    ([("accessToken", JsonValue.str t.accessToken)]
      ++ (match t.refreshToken with
          | some r => [("refreshToken", JsonValue.str r)]
          | none => [])
      ++ (match t.expiresAt with
          | some e => [("expiresAt", JsonValue.num e)]
          | none => []))

/-- Reads the three OAuth2Tokens fields off a parsed JSON value; yields
none when the value is not an object carrying a string accessToken. The
source performs no such validation (loadTokens returns the JSON.parse
result as is), so this decoder is used to express well-formedness of a
stored record, and to give the typed view of well-formed stores. -/
def jsonToTokens : JsonValue → Option OAuth2Tokens
  | JsonValue.obj fields =>
      match lookupField fields "accessToken" with
      | some (JsonValue.str a) =>
          some { accessToken := a
                 refreshToken :=
                   match lookupField fields "refreshToken" with
                   | some (JsonValue.str r) => some r
                   | _ => none
                 expiresAt :=
                   match lookupField fields "expiresAt" with
                   | some (JsonValue.num n) => some n
                   | _ => none }
      | _ => none
  | _ => none

/-- Possible states of the token file at tokensPath. -/
inductive TokensFile where
  | noFile
  | parses (v : JsonValue)
  | unparseable
  | readError

/-- Model of OAuth2AuthManager.loadTokens (auth-manager.ts lines 160-172):
missing file yields null; a read fault or a JSON.parse failure is caught
and yields null; otherwise the parse result is returned unvalidated. The
function is total: no outcome throws. -/
def loadTokens : TokensFile → Option JsonValue
  | TokensFile.noFile => none
  | TokensFile.parses v => some v
  | TokensFile.unparseable => none
  | TokensFile.readError => none

/-- Typed view of loadTokens on well-formed stores, used by the lifecycle
methods, which in the source consume the parse result at type
OAuth2Tokens. -/
def loadTokensTyped (store : TokensFile) : Option OAuth2Tokens :=
  (loadTokens store).bind jsonToTokens

/-- Model of OAuth2AuthManager.saveTokens (auth-manager.ts lines 151-158):
on success the file is wholly overwritten with the serialized bundle; a
write fault is wrapped and rethrown. -/
def saveTokens (t : OAuth2Tokens) (saveFault : Option String) :
    Except String TokensFile :=
  match saveFault with
  | some msg => Except.error ("Failed to save tokens: " ++ msg)
  | none => Except.ok (TokensFile.parses (tokensToJson t))

/-- JavaScript logical-or on an optional string against a string fallback,
modelling newRefreshToken || refreshToken (auth-manager.ts line 114):
undefined and the empty string both fall back. -/
def jsOrStr : Option String → String → String
  | some s, fallback => if s = "" then fallback else s
  | none, fallback => fallback

/-- Model of OAuth2AuthManager.refreshTokens (auth-manager.ts lines
103-123): one provider refresh call; on success the new bundle keeps the
old refresh token when the provider does not rotate it, stamps expiresAt
as now plus 7200000 ms, is persisted, and is returned; any failure
(provider rejection or save fault) is wrapped and rethrown. -/
def refreshTokens (oldRefreshToken : String) (now : Nat)
    (provider : Except String ProviderTokenResponse)
    (saveFault : Option String) : Except String (OAuth2Tokens × TokensFile) :=
  match provider with
  | Except.error e => Except.error ("Failed to refresh tokens: " ++ e)
  | Except.ok resp =>
      let tokens : OAuth2Tokens :=
        { accessToken := resp.accessToken
          refreshToken := some (jsOrStr resp.refreshToken oldRefreshToken)
          expiresAt := some (now + 7200000) }
      match saveTokens tokens saveFault with
      | Except.error e => Except.error ("Failed to refresh tokens: " ++ e)
      | Except.ok st => Except.ok (tokens, st)

/-- Model of OAuth2AuthManager.exchangeCodeForTokens (auth-manager.ts
lines 77-101): one provider exchange call; on success the bundle carries
the returned tokens with expiresAt stamped as now plus 7200000 ms (the
source comment reads: Assuming 2 hour expiry; the declared expiresIn of
the response is never read), is persisted, and is returned; failures are
wrapped and rethrown. -/
def exchangeCodeForTokens (code codeVerifier : String) (now : Nat)
    (provider : Except String ProviderTokenResponse)
    (saveFault : Option String) : Except String (OAuth2Tokens × TokensFile) :=
  match provider with
  | Except.error e => Except.error ("Failed to exchange code for tokens: " ++ e)
  | Except.ok resp =>
      let tokens : OAuth2Tokens :=
        { accessToken := resp.accessToken
          refreshToken := resp.refreshToken
          expiresAt := some (now + 7200000) }
      match saveTokens tokens saveFault with
      | Except.error e =>
          Except.error ("Failed to exchange code for tokens: " ++ e)
      | Except.ok st => Except.ok (tokens, st)

/-- Truthiness test of the guard tokens.expiresAt &&
tokens.expiresAt < Date.now() + 5 * 60 * 1000 (auth-manager.ts line 134):
an absent or zero expiresAt is falsy. -/
def expiryCheck : Option Nat → Nat → Bool
  | some e, now => e != 0 && decide (e < now + 300000)
  | none, _ => false

/-- Observable outcome of one getValidTokens call: the returned value,
the resulting token file, and how many provider refresh calls were made. -/
structure GetValidResult where
  result : Option OAuth2Tokens
  store : TokensFile
  refreshCalls : Nat

/-- Body of the try block of OAuth2AuthManager.getValidTokens
(auth-manager.ts lines 126-144), before the surrounding catch: load the
bundle (null yields null); when expiresAt is truthy and within the five
minute margin, a truthy refreshToken leads to exactly one refreshTokens
call whose result (or thrown error) is propagated, and a falsy one yields
null; otherwise the stored bundle is returned as is. The second component
counts provider refresh calls. -/
def getValidTokensBody (store : TokensFile) (now : Nat)
    (provider : Except String ProviderTokenResponse)
    (saveFault : Option String) :
    Except String (Option OAuth2Tokens × TokensFile) × Nat :=
  match loadTokensTyped store with
  | none => (Except.ok (none, store), 0)
  | some t =>
      if expiryCheck t.expiresAt now then
        match t.refreshToken with
        | some r =>
            if r != "" then
              match refreshTokens r now provider saveFault with
              | Except.ok (t2, st) => (Except.ok (some t2, st), 1)
              | Except.error e => (Except.error e, 1)
            else (Except.ok (none, store), 0)
        | none => (Except.ok (none, store), 0)
      else (Except.ok (some t, store), 0)

/-- Model of OAuth2AuthManager.getValidTokens (auth-manager.ts lines
125-149): the catch block maps any error thrown by the body to null,
leaving the stored file as it was. -/
def getValidTokens (store : TokensFile) (now : Nat)
    (provider : Except String ProviderTokenResponse)
    (saveFault : Option String) : GetValidResult :=
  match getValidTokensBody store now provider saveFault with
  | (Except.ok (r, st), n) => { result := r, store := st, refreshCalls := n }
  | (Except.error _, n) => { result := none, store := store, refreshCalls := n }

/-- Decides whether an Except value is an error. -/
def exceptIsError {α : Type} : Except String α → Bool
  | Except.error _ => true
  | Except.ok _ => false

/-- Query parameters of one HTTP request as seen by the callback handler
(setup-auth.ts lines 77-80): the path and the code, state and error query
parameters, each possibly absent. -/
structure CallbackRequest where
  pathname : String
  code : Option String
  state : Option String
  error : Option String
deriving DecidableEq

/-- JavaScript falsiness of an optional query parameter: absent or the
empty string. -/
def jsFalsy : Option String → Bool
  | none => true
  | some s => s == ""

/-- HTML body rendered to the browser by one handler invocation. -/
inductive HttpResponse where
  | authFailedPage (err : String)
  | invalidRequestPage
  | successPage
  | exchangeFailedPage (msg : String)
  | notFoundPage
  | noResponse
deriving DecidableEq

/-- Terminal signal of the setup promise: the reject and resolve calls of
startCallbackServer (setup-auth.ts lines 94, 109, 137, 149). -/
inductive SetupOutcome where
  | authorizationFailed (err : String)
  | invalidParams
  | success (tokens : OAuth2Tokens)
  | exchangeFailed (msg : String)
deriving DecidableEq

/-- State of the callback listener: whether the server still accepts
requests, how many exchange calls have been made, the signalled terminal
outcome, and the token file (written by a successful exchange). -/
structure CallbackServerState where
  live : Bool
  exchangeCalls : Nat
  outcome : Option SetupOutcome
  store : TokensFile

/-- Model of the request handler of OAuthSetup.startCallbackServer
(setup-auth.ts lines 75-159). A closed server delivers no response. A
request off the callback path gets the 404 body and leaves the state
untouched. On the callback path: a truthy error parameter renders the
failure page, signals rejection and closes the server; a falsy code, a
falsy state or a state different from the live request state renders the
invalid page, signals rejection and closes the server, without invoking
exchange; otherwise exchangeCodeForTokens is invoked exactly once, its
success renders the success page and stores the bundle, its failure
renders the failure page, and the server closes either way. -/
def handleRequest (authState codeVerifier : String) (now : Nat)
    (provider : Except String ProviderTokenResponse)
    (saveFault : Option String)
    (s : CallbackServerState) (req : CallbackRequest) :
    CallbackServerState × HttpResponse :=
  if s.live then
    if req.pathname = "/callback" then
      if jsFalsy req.error then
        if jsFalsy req.code || jsFalsy req.state || req.state != some authState then
          (⟨false, s.exchangeCalls, some SetupOutcome.invalidParams, s.store⟩,
           HttpResponse.invalidRequestPage)
        else
          match exchangeCodeForTokens (req.code.getD "") codeVerifier now provider saveFault with
          | Except.ok (t, st) =>
              (⟨false, s.exchangeCalls + 1, some (SetupOutcome.success t), st⟩,
               HttpResponse.successPage)
          | Except.error e =>
              (⟨false, s.exchangeCalls + 1, some (SetupOutcome.exchangeFailed e), s.store⟩,
               HttpResponse.exchangeFailedPage e)
      else
        (⟨false, s.exchangeCalls,
          some (SetupOutcome.authorizationFailed (req.error.getD "")), s.store⟩,
         HttpResponse.authFailedPage (req.error.getD ""))
    else (s, HttpResponse.notFoundPage)
  else (s, HttpResponse.noResponse)

/-- One transition of the listener state machine. -/
def serverStep (authState codeVerifier : String) (now : Nat)
    (provider : Except String ProviderTokenResponse)
    (saveFault : Option String)
    (s : CallbackServerState) (req : CallbackRequest) : CallbackServerState :=
  (handleRequest authState codeVerifier now provider saveFault s req).1

/-- Processes a whole sequence of incoming requests during one setup run,
starting from a freshly listening server. -/
def runCallbackServer (authState codeVerifier : String) (now : Nat)
    (provider : Except String ProviderTokenResponse)
    (saveFault : Option String) (store : TokensFile)
    (reqs : List CallbackRequest) : CallbackServerState :=
  List.foldl (serverStep authState codeVerifier now provider saveFault)
    { live := true, exchangeCalls := 0, outcome := none, store := store } reqs

/-- Whether a request takes the exchange branch of the handler: on the
callback path, no truthy error, truthy code, truthy state, and state
equal to the state of the live authorization request. -/
def validCallback (authState : String) (req : CallbackRequest) : Bool :=
  decide (req.pathname = "/callback") && jsFalsy req.error
    && !(jsFalsy req.code || jsFalsy req.state || req.state != some authState)

/-- Number of exchange invocations a request sequence causes: zero unless
the first request on the callback path takes the exchange branch. -/
def firstHitScore (authState : String) : List CallbackRequest → Nat
  | [] => 0
  | req :: rest =>
      if req.pathname = "/callback" then
        (if validCallback authState req then 1 else 0)
      else firstHitScore authState rest

/-- Round trip of the serializer and the field reader: the object written
by JSON.stringify for a bundle reads back as exactly that bundle. -/
theorem jsonToTokens_tokensToJson (t : OAuth2Tokens) :
    jsonToTokens (tokensToJson t) = some t := by
  obtain ⟨a, r, e⟩ := t
  cases r <;> cases e <;> rfl

/-- C9: for every TokenBundle, performing save(bundle) followed by load()
yields a bundle equal in all fields (accessToken, refreshToken,
expiresAt) to the original: save overwrites the file with the serialized
bundle, load returns its parse, and reading the three fields off that
parse recovers the original bundle exactly. -/
theorem save_load_roundtrip (t : OAuth2Tokens) :
    saveTokens t none = Except.ok (TokensFile.parses (tokensToJson t))
    ∧ loadTokens (TokensFile.parses (tokensToJson t)) = some (tokensToJson t)
    ∧ jsonToTokens (tokensToJson t) = some t :=
  ⟨rfl, rfl, jsonToTokens_tokensToJson t⟩

/-- C5 counterexample: the claim that load maps every malformed or
corrupt stored record to absent is false. A file whose content is the
syntactically valid JSON text for the empty object is returned as parsed
by loadTokens, not mapped to absent, although it is not a well-formed
token bundle (it lacks the accessToken field), so the caller receives a
value on which accessToken is undefined. -/
theorem load_returns_malformed_record :
    loadTokens (TokensFile.parses (JsonValue.obj [])) = some (JsonValue.obj [])
    ∧ jsonToTokens (JsonValue.obj []) = none :=
  ⟨rfl, rfl⟩

/-- C5 (amended): load returns an explicit absent result when no file has
been saved, when the read itself faults, and when the stored content is
not syntactically valid JSON, never throwing in any of these cases (the
model function is total); a syntactically valid stored record is returned
as parsed, without any shape validation. -/
theorem load_absent_cases :
    loadTokens TokensFile.noFile = none
    ∧ loadTokens TokensFile.unparseable = none
    ∧ loadTokens TokensFile.readError = none
    ∧ ∀ v, loadTokens (TokensFile.parses v) = some v :=
  ⟨rfl, rfl, rfl, fun _ => rfl⟩

/-- C3 counterexample: the claim that expiresAt equals the current time
plus the provider-declared lifetime whenever the provider declares one is
false. At current time 1000000 with a provider response declaring a
lifetime of 100 seconds, the exchange step returns a bundle whose
expiresAt is 8200000, the fixed two hour default, and not
1000000 + 100 * 1000. -/
theorem exchange_ignores_declared_lifetime :
    exchangeCodeForTokens "abc123" "verifier" 1000000
        (Except.ok ⟨"AT", none, some 100⟩) none
      = Except.ok (⟨"AT", none, some 8200000⟩,
          TokensFile.parses (tokensToJson ⟨"AT", none, some 8200000⟩))
    ∧ (8200000 : Nat) ≠ 1000000 + 100 * 1000 :=
  ⟨rfl, by decide⟩

/-- C3 (amended): for every successful authorization-code exchange, the
returned TokenBundle has expiresAt equal to the current time plus a fixed
two hour default (7200000 ms), regardless of any provider-declared
lifetime, and that bundle is persisted to the Token Store before being
returned. -/
theorem exchange_fixed_lifetime_and_persists (code codeVerifier : String)
    (now : Nat) (resp : ProviderTokenResponse) :
    exchangeCodeForTokens code codeVerifier now (Except.ok resp) none
      = Except.ok (⟨resp.accessToken, resp.refreshToken, some (now + 7200000)⟩,
          TokensFile.parses
            (tokensToJson ⟨resp.accessToken, resp.refreshToken, some (now + 7200000)⟩)) :=
  rfl

/-- C8: for every successful refresh call whose provider response does
not include a new refresh token, the old refresh token passed into
refresh is retained in the resulting bundle, and the new bundle is
persisted to the Token Store and returned. -/
theorem refresh_retains_old_refresh_token (oldRefreshToken : String)
    (now : Nat) (acc : String) (expIn : Option Nat) :
    refreshTokens oldRefreshToken now (Except.ok ⟨acc, none, expIn⟩) none
      = Except.ok (⟨acc, some oldRefreshToken, some (now + 7200000)⟩,
          TokensFile.parses
            (tokensToJson ⟨acc, some oldRefreshToken, some (now + 7200000)⟩)) :=
  rfl

/-- C7: when the Token Store holds no bundle, getValidTokens returns
absent without performing any network interaction: zero refresh calls,
and the function contains no exchange call at all. -/
theorem get_valid_tokens_empty_store (now : Nat)
    (provider : Except String ProviderTokenResponse) (saveFault : Option String) :
    getValidTokens TokensFile.noFile now provider saveFault
      = ⟨none, TokensFile.noFile, 0⟩ :=
  rfl

/-- C2: for every stored bundle whose expiresAt lies within the five
minute safety margin of the current (positive) clock time, getValidTokens
with a present (nonempty) refreshToken triggers exactly one provider
refresh call, returns the refreshed bundle when the provider and the save
succeed, and returns absent when the provider rejects the refresh,
without any retry; with no refreshToken it returns absent with zero
provider calls. -/
theorem near_expiry_refresh_once (t : OAuth2Tokens) (e now : Nat)
    (provider : Except String ProviderTokenResponse) (saveFault : Option String)
    (hexp : t.expiresAt = some e) (hnow : 0 < now) (hlo : now ≤ e)
    (hhi : e < now + 300000) :
    (∀ r, t.refreshToken = some r → r ≠ "" →
      (getValidTokens (TokensFile.parses (tokensToJson t)) now provider
          saveFault).refreshCalls = 1
      ∧ (∀ resp, provider = Except.ok resp → saveFault = none →
          (getValidTokens (TokensFile.parses (tokensToJson t)) now provider
              saveFault).result
            = some ⟨resp.accessToken, some (jsOrStr resp.refreshToken r),
                some (now + 7200000)⟩)
      ∧ (∀ msg, provider = Except.error msg →
          (getValidTokens (TokensFile.parses (tokensToJson t)) now provider
              saveFault).result = none))
    ∧ (t.refreshToken = none →
        getValidTokens (TokensFile.parses (tokensToJson t)) now provider saveFault
          = ⟨none, TokensFile.parses (tokensToJson t), 0⟩) := by
  have hload : loadTokensTyped (TokensFile.parses (tokensToJson t)) = some t := by
    simp [loadTokensTyped, loadTokens, jsonToTokens_tokensToJson]
  have hchk : expiryCheck t.expiresAt now = true := by
    rw [hexp]
    simp only [expiryCheck, Bool.and_eq_true, bne_iff_ne, ne_eq, decide_eq_true_eq]
    omega
  constructor
  · intro r hr hrne
    have hb : (r != "") = true := by simp [hrne]
    refine ⟨?_, ?_, ?_⟩
    · simp only [getValidTokens, getValidTokensBody, hload, hchk, if_true, hr, hb]
      cases provider with
      | error msg => simp [refreshTokens]
      | ok resp =>
          cases saveFault with
          | none => simp [refreshTokens, saveTokens]
          | some m => simp [refreshTokens, saveTokens]
    · intro resp hp hs
      subst hp; subst hs
      simp [getValidTokens, getValidTokensBody, hload, hchk, hr, hb,
        refreshTokens, saveTokens]
    · intro msg hp
      subst hp
      simp [getValidTokens, getValidTokensBody, hload, hchk, hr, hb, refreshTokens]
  · intro hr
    simp [getValidTokens, getValidTokensBody, hload, hchk, hr]

/-- Witness for C2: a bundle expiring 200 seconds after the current time
with refresh token R makes exactly one refresh call and returns the
rotated bundle from the provider. -/
theorem near_expiry_refresh_once_witness :
    (getValidTokens (TokensFile.parses (tokensToJson ⟨"A", some "R", some 1200000⟩))
        1000000 (Except.ok ⟨"A2", some "R2", none⟩) none).refreshCalls = 1
    ∧ (getValidTokens (TokensFile.parses (tokensToJson ⟨"A", some "R", some 1200000⟩))
        1000000 (Except.ok ⟨"A2", some "R2", none⟩) none).result
      = some ⟨"A2", some "R2", some 8200000⟩ := by
  have h := near_expiry_refresh_once ⟨"A", some "R", some 1200000⟩ 1200000 1000000
      (Except.ok ⟨"A2", some "R2", none⟩) none rfl (by decide) (by decide) (by decide)
  have h1 := h.1 "R" rfl (by decide)
  exact ⟨h1.1, h1.2.1 ⟨"A2", some "R2", none⟩ rfl rfl⟩

/-- C6: for every stored bundle whose expiresAt is more than the five
minute safety margin in the future, getValidTokens returns the stored
bundle unchanged, leaves the store untouched and makes zero provider
refresh calls (and the function contains no exchange call at all). -/
theorem fresh_token_returned_unchanged (t : OAuth2Tokens) (e now : Nat)
    (provider : Except String ProviderTokenResponse) (saveFault : Option String)
    (hexp : t.expiresAt = some e) (hfar : now + 300000 < e) :
    getValidTokens (TokensFile.parses (tokensToJson t)) now provider saveFault
      = ⟨some t, TokensFile.parses (tokensToJson t), 0⟩ := by
  have hload : loadTokensTyped (TokensFile.parses (tokensToJson t)) = some t := by
    simp [loadTokensTyped, loadTokens, jsonToTokens_tokensToJson]
  have hchk : expiryCheck t.expiresAt now = false := by
    rw [hexp]
    simp only [expiryCheck, Bool.and_eq_false_iff, bne_iff_ne, ne_eq,
      decide_eq_false_iff_not, not_not, not_lt]
    omega
  simp [getValidTokens, getValidTokensBody, hload, hchk]

/-- Witness for C6: a bundle expiring 6200 seconds after the current time
is returned as stored, with zero refresh calls. -/
theorem fresh_token_returned_unchanged_witness :
    getValidTokens (TokensFile.parses (tokensToJson ⟨"A", none, some 7200000⟩))
        1000000 (Except.error "down") none
      = ⟨some ⟨"A", none, some 7200000⟩,
          TokensFile.parses (tokensToJson ⟨"A", none, some 7200000⟩), 0⟩ :=
  fresh_token_returned_unchanged ⟨"A", none, some 7200000⟩ 7200000 1000000
    (Except.error "down") none rfl (by decide)

/-- C10: getValidTokens never surfaces an error to its caller: whenever
the body of its try block throws (a failed provider refresh, or a
persistence fault while saving the refreshed bundle, whose wrapped
message subsumes PersistenceError), or the store read faults (which
loadTokens already catches), the call collapses to an absent result
instead of propagating the exception; the model function is total, so no
input makes it throw. -/
theorem get_valid_tokens_absorbs_failures (store : TokensFile) (now : Nat)
    (provider : Except String ProviderTokenResponse) (saveFault : Option String)
    (h : exceptIsError (getValidTokensBody store now provider saveFault).1 = true
         ∨ store = TokensFile.readError) :
    (getValidTokens store now provider saveFault).result = none := by
  cases h with
  | inl h =>
      unfold getValidTokens
      rcases hb : getValidTokensBody store now provider saveFault with ⟨res, n⟩
      rw [hb] at h
      cases res with
      | ok v => simp [exceptIsError] at h
      | error e => simp
  | inr h => subst h; rfl

/-- Witness for C10: a near-expiry bundle whose refresh is rejected by
the provider yields an absent result rather than an error. -/
theorem get_valid_tokens_absorbs_failures_witness :
    (getValidTokens (TokensFile.parses (tokensToJson ⟨"A", some "R", some 100⟩))
        1000000 (Except.error "revoked") none).result = none :=
  get_valid_tokens_absorbs_failures
    (TokensFile.parses (tokensToJson ⟨"A", some "R", some 100⟩)) 1000000
    (Except.error "revoked") none (Or.inl rfl)

/-- A closed server ignores every request. -/
theorem serverStep_dead (authState codeVerifier : String) (now : Nat)
    (provider : Except String ProviderTokenResponse) (saveFault : Option String)
    (s : CallbackServerState) (req : CallbackRequest) (h : s.live = false) :
    serverStep authState codeVerifier now provider saveFault s req = s := by
  simp [serverStep, handleRequest, h]

/-- A closed server ignores every remaining request of a sequence. -/
theorem foldl_serverStep_dead (authState codeVerifier : String) (now : Nat)
    (provider : Except String ProviderTokenResponse) (saveFault : Option String) :
    ∀ (reqs : List CallbackRequest) (s : CallbackServerState), s.live = false →
      List.foldl (serverStep authState codeVerifier now provider saveFault) s reqs = s
  | [], _, _ => rfl
  | req :: rest, s, h => by
      rw [List.foldl_cons,
        serverStep_dead authState codeVerifier now provider saveFault s req h]
      exact foldl_serverStep_dead authState codeVerifier now provider saveFault rest s h

/-- A request off the callback path leaves the listener state unchanged. -/
theorem serverStep_notCallback (authState codeVerifier : String) (now : Nat)
    (provider : Except String ProviderTokenResponse) (saveFault : Option String)
    (s : CallbackServerState) (req : CallbackRequest) (h : s.live = true)
    (hp : req.pathname ≠ "/callback") :
    serverStep authState codeVerifier now provider saveFault s req = s := by
  simp [serverStep, handleRequest, h, hp]

/-- Every request on the callback path is terminal for a live listener:
the server closes, and the exchange count grows by one exactly when the
request takes the exchange branch. -/
theorem serverStep_callback (authState codeVerifier : String) (now : Nat)
    (provider : Except String ProviderTokenResponse) (saveFault : Option String)
    (s : CallbackServerState) (req : CallbackRequest) (h : s.live = true)
    (hp : req.pathname = "/callback") :
    (serverStep authState codeVerifier now provider saveFault s req).live = false
    ∧ (serverStep authState codeVerifier now provider saveFault s req).exchangeCalls
        = s.exchangeCalls + (if validCallback authState req then 1 else 0) := by
  simp only [serverStep, handleRequest, h, hp, if_true, eq_self_iff_true]
  cases herr : jsFalsy req.error with
  | false => simp [validCallback, herr]
  | true =>
      cases hcond : (jsFalsy req.code || jsFalsy req.state || req.state != some authState) with
      | true => simp [validCallback, herr, hcond, hp]
      | false =>
          rcases hx : exchangeCodeForTokens (req.code.getD "") codeVerifier now
              provider saveFault with e | ⟨t, st⟩ <;>
            simp [hx, validCallback, herr, hcond, hp]

/-- Number of exchange calls a live listener makes on a request sequence:
exactly the score of the first callback-path request. -/
theorem foldl_serverStep_exchangeCalls (authState codeVerifier : String) (now : Nat)
    (provider : Except String ProviderTokenResponse) (saveFault : Option String) :
    ∀ (reqs : List CallbackRequest) (s : CallbackServerState), s.live = true →
      (List.foldl (serverStep authState codeVerifier now provider saveFault) s reqs).exchangeCalls
        = s.exchangeCalls + firstHitScore authState reqs
  | [], s, _ => by simp [firstHitScore]
  | req :: rest, s, h => by
      by_cases hp : req.pathname = "/callback"
      · have hstep := serverStep_callback authState codeVerifier now provider saveFault
          s req h hp
        rw [List.foldl_cons,
          foldl_serverStep_dead authState codeVerifier now provider saveFault rest _ hstep.1,
          hstep.2]
        simp [firstHitScore, hp]
      · rw [List.foldl_cons,
          serverStep_notCallback authState codeVerifier now provider saveFault s req h hp,
          foldl_serverStep_exchangeCalls authState codeVerifier now provider saveFault rest s h]
        simp [firstHitScore, hp]

/-- The first-hit score of a sequence never exceeds one. -/
theorem firstHitScore_le_one (authState : String) :
    ∀ reqs : List CallbackRequest, firstHitScore authState reqs ≤ 1
  | [] => Nat.zero_le 1
  | req :: rest => by
      by_cases hp : req.pathname = "/callback"
      · simp only [firstHitScore, hp, if_true, eq_self_iff_true]
        split <;> simp
      · simp only [firstHitScore, hp, if_false]
        exact firstHitScore_le_one authState rest

/-- C1 counterexample: the claim that, in every sequence of callback-path
requests, the first request carrying a valid code and a state matching
the live AuthorizationRequest triggers exchange is false. In the sequence
below, the first callback-path request has a mismatched state and the
second is the first (and only) request with a valid code and matching
state, yet processing the sequence performs zero exchange calls, because
the first request already closed the server. -/
theorem first_valid_callback_not_exchanged :
    List.find? (validCallback "S")
        [⟨"/callback", some "evil", some "WRONG", none⟩,
         ⟨"/callback", some "abc123", some "S", none⟩]
      = some ⟨"/callback", some "abc123", some "S", none⟩
    ∧ (runCallbackServer "S" "V" 0 (Except.ok ⟨"AT", none, none⟩) none
        TokensFile.noFile
        [⟨"/callback", some "evil", some "WRONG", none⟩,
         ⟨"/callback", some "abc123", some "S", none⟩]).exchangeCalls = 0 :=
  ⟨rfl, rfl⟩

/-- C1 (amended): during one authorization attempt the exchange step is
applied at most once, and the first callback-path request of the sequence
is the only one that can trigger it: the total number of exchange calls
equals one exactly when that first callback-path request carries a valid
code and a matching state, and every later callback-path request — even
one reusing the same state with a valid-looking code — is dropped by the
closed server without invoking exchange. -/
theorem exchange_applied_at_most_once (authState codeVerifier : String)
    (now : Nat) (provider : Except String ProviderTokenResponse)
    (saveFault : Option String) (store : TokensFile)
    (reqs : List CallbackRequest) :
    (runCallbackServer authState codeVerifier now provider saveFault store
        reqs).exchangeCalls = firstHitScore authState reqs
    ∧ (runCallbackServer authState codeVerifier now provider saveFault store
        reqs).exchangeCalls ≤ 1 := by
  have h := foldl_serverStep_exchangeCalls authState codeVerifier now provider saveFault
    reqs ⟨true, 0, none, store⟩ rfl
  constructor
  · simpa [runCallbackServer] using h
  · have h2 : (runCallbackServer authState codeVerifier now provider saveFault store
        reqs).exchangeCalls = firstHitScore authState reqs := by
      simpa [runCallbackServer] using h
    rw [h2]
    exact firstHitScore_le_one authState reqs

/-- C4: a live listener, on a callback-path request with no truthy error
parameter whose code is missing (or empty), whose state is missing (or
empty), or whose state differs from the live request state, renders the
invalid-request failure page, signals the invalid-parameters rejection,
stops listening, and does not invoke the exchange step (the exchange
count and the store are unchanged). -/
theorem invalid_callback_rejected_without_exchange (authState codeVerifier : String)
    (now : Nat) (provider : Except String ProviderTokenResponse)
    (saveFault : Option String) (s : CallbackServerState) (req : CallbackRequest)
    (hlive : s.live = true) (hpath : req.pathname = "/callback")
    (herr : jsFalsy req.error = true)
    (hbad : jsFalsy req.code = true ∨ jsFalsy req.state = true
            ∨ req.state ≠ some authState) :
    handleRequest authState codeVerifier now provider saveFault s req
      = (⟨false, s.exchangeCalls, some SetupOutcome.invalidParams, s.store⟩,
         HttpResponse.invalidRequestPage) := by
  have hcond : (jsFalsy req.code || jsFalsy req.state
      || req.state != some authState) = true := by
    rcases hbad with h | h | h <;> simp [h, bne_iff_ne]
  simp [handleRequest, hlive, hpath, herr, hcond]

/-- Witness for C4: a callback request whose state does not match the
live state S is rejected with the invalid page, no exchange, server
closed. -/
theorem invalid_callback_rejected_without_exchange_witness :
    handleRequest "S" "V" 0 (Except.ok ⟨"AT", none, none⟩) none
        ⟨true, 0, none, TokensFile.noFile⟩
        ⟨"/callback", some "abc123", some "WRONG", none⟩
      = (⟨false, 0, some SetupOutcome.invalidParams, TokensFile.noFile⟩,
         HttpResponse.invalidRequestPage) :=
  invalid_callback_rejected_without_exchange "S" "V" 0 (Except.ok ⟨"AT", none, none⟩)
    none ⟨true, 0, none, TokensFile.noFile⟩
    ⟨"/callback", some "abc123", some "WRONG", none⟩
    rfl rfl rfl (Or.inr (Or.inr (by decide)))
